import Mathlib

/-!
# Verification of the payment-gated order pipeline (pbc-x402-api)

Shallow embedding of the core logic of `src/routes/order.ts` and
`src/lib/stripe.ts`:

* a JSON-ish value model (`Jval`) for decoded payment headers, with JS
  truthiness, property access, string conversion and `BigInt`/`Number`
  parsing modelled for the integer-valued fragment the code exercises
  (JSON numbers are modelled as integers: the code only compares unix
  timestamps and parses integer amount strings on these paths);
* `verifyPaymentHeader` — the x402 proof verifier (order.ts lines 100-198);
* `calculateOrderTotal` — the price calculator (order.ts lines 43-70),
  with JS number arithmetic idealised as exact rational arithmetic and
  `Math.round` as round-half-up (`⌊q + 1/2⌋`, JS semantics for the
  non-negative amounts involved);
* `placeOrder` — the POST /order pipeline (order.ts lines 211-356), with
  the request body as a structured record, the header decode result and
  the address-provisioner outcome as explicit parameters, and the two
  clock reads (unix seconds for the verifier, milliseconds for the order
  id) as explicit parameters;
* `createPayToAddress` — the payment address provisioner
  (stripe.ts lines 41-105) with the Stripe backend outcome as a parameter;
* `mkOrderId` — the order-id generator `PBC-${Date.now().toString(36).toUpperCase()}`.
-/

namespace Pbc

/-- JSON-like values as produced by `JSON.parse`.  Numbers are modelled as
integers (the code paths under verification only use integer-valued
numbers: unix timestamps and token amounts). -/
inductive Jval where
  | null : Jval
  | bool (b : Bool) : Jval
  | num (n : Int) : Jval
  | str (s : String) : Jval
  | arr (elems : List Jval) : Jval
  | obj (fields : List (String × Jval)) : Jval
deriving Repr

/-- Is this value JSON `null`?  (Property access on `null` throws in JS.) -/
def Jval.isNullV : Jval → Bool
  | .null => true
  | _ => false

/-- JS truthiness of a JSON value (`NaN` does not arise in the integer
model; arrays and objects are always truthy). -/
def truthy : Jval → Bool
  | .null => false
  | .bool b => b
  | .num n => n != 0
  | .str s => s != ""
  | .arr _ => true
  | .obj _ => true

/-- Property access `v[k]`: returns the field of an object, `none`
(JS `undefined`) otherwise.  Access on `null` throws in JS and is handled
separately at each use site. -/
def getField : Jval → String → Option Jval
  | .obj fields, k => (fields.find? (fun f => f.1 == k)).map (·.2)
  | _, _ => none

/-- Truthiness of a possibly-undefined value (`undefined` is falsy). -/
def optTruthy (v : Option Jval) : Bool :=
  match v with
  | some w => truthy w
  | none => false

/-- JS whitespace for `StringToBigInt` trimming. -/
def isWsChar (c : Char) : Bool :=
  c == ' ' || c == '\t' || c == '\n' || c == '\r'

/-- Trim leading and trailing whitespace from a character list. -/
def trimChars (cs : List Char) : List Char :=
  ((cs.dropWhile isWsChar).reverse.dropWhile isWsChar).reverse

/-- Whether the string starts with "0x", on the character representation. -/
def startsWith0x (s : String) : Bool :=
  match s.data with
  | '0' :: 'x' :: _ => true
  | _ => false

/-- Parse a list of characters as a natural number in the given base,
requiring every character to be a valid digit and the list nonempty. -/
def digitsToNat? (base : Nat) (cs : List Char) : Option Nat :=
  let val? (c : Char) : Option Nat :=
    if c.isDigit then
      if c.toNat - 48 < base then some (c.toNat - 48) else none
    else if 'a' ≤ c ∧ c ≤ 'z' then
      if c.toNat - 87 < base then some (c.toNat - 87) else none
    else if 'A' ≤ c ∧ c ≤ 'Z' then
      if c.toNat - 55 < base then some (c.toNat - 55) else none
    else none
  match cs with
  | [] => none
  | _ =>
    cs.foldl (fun acc c =>
      match acc, val? c with
      | some a, some d => some (a * base + d)
      | _, _ => none) (some 0)

/-- JS `BigInt(string)` (ECMA `StringToBigInt`): trims whitespace, the
empty string is `0`, a decimal literal may carry a sign, `0x`/`0o`/`0b`
literals are unsigned; anything else throws (`none`). -/
def parseBigInt? (s : String) : Option Int :=
  match trimChars s.data with
  | [] => some 0
  | t =>
    match t with
    | '-' :: rest => (digitsToNat? 10 rest).map (fun n => -(n : Int))
    | '+' :: rest => (digitsToNat? 10 rest).map (fun n => (n : Int))
    | '0' :: 'x' :: rest => (digitsToNat? 16 rest).map (fun n => (n : Int))
    | '0' :: 'X' :: rest => (digitsToNat? 16 rest).map (fun n => (n : Int))
    | '0' :: 'o' :: rest => (digitsToNat? 8 rest).map (fun n => (n : Int))
    | '0' :: 'O' :: rest => (digitsToNat? 8 rest).map (fun n => (n : Int))
    | '0' :: 'b' :: rest => (digitsToNat? 2 rest).map (fun n => (n : Int))
    | '0' :: 'B' :: rest => (digitsToNat? 2 rest).map (fun n => (n : Int))
    | cs => (digitsToNat? 10 cs).map (fun n => (n : Int))

mutual

/-- JS `toString` on JSON values (arrays join element strings with ","). -/
def toStringJ : Jval → String
  | .null => "null"
  | .bool b => if b then "true" else "false"
  | .num n => toString n
  | .str s => s
  | .arr elems => String.intercalate "," (arrElemStrs elems)
  | .obj _ => "[object Object]"

/-- Element strings of a JS array `toString` (null elements render as ""). -/
def arrElemStrs : List Jval → List String
  | [] => []
  | e :: rest => (if e.isNullV then "" else toStringJ e) :: arrElemStrs rest

end

/-- JS numeric coercion `Number(v)` for the integer-valued fragment:
`none` models `NaN`. -/
def toNum? : Jval → Option Int
  | .null => some 0
  | .bool b => some (if b then 1 else 0)
  | .num n => some n
  | .str s => parseBigInt? s
  | .arr elems => parseBigInt? (toStringJ (.arr elems))
  | .obj _ => none

/-- JS comparison `a < v` after numeric coercion of `v`
(comparison with `NaN` is false). -/
def jsLtB (a : Int) (v : Jval) : Bool :=
  match toNum? v with
  | some n => decide (a < n)
  | none => false

/-- JS comparison `a > v` after numeric coercion of `v`. -/
def jsGtB (a : Int) (v : Jval) : Bool :=
  match toNum? v with
  | some n => decide (n < a)
  | none => false

/-- The verifier's failure reasons (order.ts lines 112-196): each
constructor stands for one of the error strings of `verifyPaymentHeader`;
`malformed` is the catch-all `"Failed to decode payment header: ..."`
produced by the surrounding try/catch (base64/JSON decode failure,
property access on `null`, or a `BigInt` parse throw). -/
inductive VError where
  | malformed
  | missingPayload
  | missingAuthorization
  | invalidFrom
  | invalidTo
  | missingSignature
  | notYetValid
  | expired
deriving DecidableEq, Repr

/-- Result record of `verifyPaymentHeader` (order.ts lines 103-109). -/
structure VResult where
  valid : Bool
  fromAddress : Option String := none
  toAddress : Option String := none
  amountCents : Option Int := none
  error : Option VError := none
deriving DecidableEq, Repr

/-- Shorthand for an invalid result carrying a reason. -/
def vfail (e : VError) : VResult := { valid := false, error := some e }

/-- The address check of order.ts lines 131-137: passes exactly when the
field holds a string value whose text starts with `"0x"` (the JS guard is
`!addr || typeof addr !== "string" || !addr.startsWith("0x")`; falsy or
non-string values fail the earlier disjuncts). -/
def addrOk? (v : Option Jval) : Option String :=
  match v with
  | some (.str s) => if startsWith0x s then some s else none
  | _ => none

/-- The signature check of order.ts line 140: `payload.signature` must be
truthy and string-typed. -/
def sigOk (v : Option Jval) : Bool :=
  match v with
  | some (.str s) => s != ""
  | _ => false

/-- The `validAfter` window check (order.ts line 165): passes unless the
field is truthy and `now < validAfter`. -/
def timeOkAfter (va : Option Jval) (now : Int) : Bool :=
  match va with
  | some v => !(truthy v && jsLtB now v)
  | none => true

/-- The `validBefore` window check (order.ts line 168): passes unless the
field is truthy and `now > validBefore`. -/
def timeOkBefore (vb : Option Jval) (now : Int) : Bool :=
  match vb with
  | some v => !(truthy v && jsGtB now v)
  | none => true

/-- The function `verifyPaymentHeader` (order.ts lines 100-198).

The opaque base64 header string is represented by its decode result:
`none` models every input string on which
`JSON.parse(Buffer.from(h, "base64").toString())` throws, `some d` an
input decoding to the JSON value `d`.  The single `catch` of the source
turns every throw (decode failure, property access on `null`,
`BigInt(value)` parse failure) into an invalid result with the
"Failed to decode payment header" reason, here `.malformed`.
`Date.now()/1000` is the explicit parameter `now`.

The amount step (lines 146-161) converts a present, truthy `value` from
6-decimal USDC units to cents by BigInt division by 10000 (truncating, as
JS BigInt division) and only logs a warning on a mismatch with
`expectedAmountCents` beyond the 1-cent tolerance — it never fails
verification. -/
def verifyPaymentHeader (decoded : Option Jval) (expectedAmountCents now : Int) :
    VResult :=
  match decoded with
  | none => vfail .malformed
  | some d =>
    if d.isNullV then vfail .malformed    -- `decoded.payload` throws on null
    else
      let payload := getField d "payload"
      if !optTruthy payload then vfail .missingPayload
      else
        let auth := payload.bind (getField · "authorization")
        if !optTruthy auth then vfail .missingAuthorization
        else
          match addrOk? (auth.bind (getField · "from")) with
          | none => vfail .invalidFrom
          | some fromAddress =>
            match addrOk? (auth.bind (getField · "to")) with
            | none => vfail .invalidTo
            | some toAddress =>
              if !sigOk (payload.bind (getField · "signature")) then
                vfail .missingSignature
              else
                let valueV := auth.bind (getField · "value")
                let amount? : Option (Option Int) :=
                  match valueV with
                  | some v =>
                    if truthy v then
                      match parseBigInt? (toStringJ v) with
                      | some usdcUnits => some (some (usdcUnits.tdiv 10000))
                      | none => none      -- BigInt throws; caught below
                    else some none
                  | none => some none
                match amount? with
                | none => vfail .malformed
                | some amountCents =>
                  -- amount mismatch beyond the 1-cent tolerance only
                  -- warns (order.ts lines 154-160); nothing to model
                  if !timeOkAfter (auth.bind (getField · "validAfter")) now then
                    vfail .notYetValid
                  else if !timeOkBefore (auth.bind (getField · "validBefore")) now then
                    vfail .expired
                  else
                    { valid := true
                      fromAddress := some fromAddress
                      toAddress := some toAddress
                      amountCents := amountCents
                      error := none }

/-! ## Spec-shaped reference for the verifier's check ordering (§4.3)

`specCheckList` lists the verifier's checks in the order the spec states
them; `firstFailure` returns the reason of the first failing check.  This
pair follows the spec's words ("ordered checks; first failure
short-circuits with a specific reason") and is compared against the
source-shaped `verifyPaymentHeader` above. -/

/-- Reason of the first failing check in an ordered check list. -/
def firstFailure : List (Bool × VError) → Option VError
  | [] => none
  | (ok, e) :: rest => if ok then firstFailure rest else some e

/-- The verifier's checks, in the spec's fixed order: decode (here: the
throwing access on a `null` document), payload presence, authorization
presence, `from`/`to` address shape, signature presence, amount
reconciliation (which can only fail by a `BigInt` parse throw, folded
into the malformed-proof reason; a mere mismatch never fails), then the
time window. -/
def specCheckList (d : Jval) (now : Int) : List (Bool × VError) :=
  let payload := getField d "payload"
  let auth := payload.bind (getField · "authorization")
  let valueV := auth.bind (getField · "value")
  let valueParses : Bool :=
    match valueV with
    | some v => !truthy v || (parseBigInt? (toStringJ v)).isSome
    | none => true
  [ (!d.isNullV, .malformed),
    (optTruthy payload, .missingPayload),
    (optTruthy auth, .missingAuthorization),
    ((addrOk? (auth.bind (getField · "from"))).isSome, .invalidFrom),
    ((addrOk? (auth.bind (getField · "to"))).isSome, .invalidTo),
    (sigOk (payload.bind (getField · "signature")), .missingSignature),
    (valueParses, .malformed),
    (timeOkAfter (auth.bind (getField · "validAfter")) now, .notYetValid),
    (timeOkBefore (auth.bind (getField · "validBefore")) now, .expired) ]

/-- Spec-shaped verdict: an undecodable header is malformed; otherwise the
first failing check of the ordered list determines the reason. -/
def specVerifyError (decoded : Option Jval) (now : Int) : Option VError :=
  match decoded with
  | none => some .malformed
  | some d => firstFailure (specCheckList d now)

/-! ## Proof-header constructors used to state the claims -/

/-- An optional object field: present fields contribute one key/value
pair, absent fields contribute nothing (JS `undefined`). -/
def optField (k : String) (v : Option Jval) : List (String × Jval) :=
  match v with
  | some w => [(k, w)]
  | none => []

/-- An x402 `authorization` object in which every field may be absent. -/
def authObj (fromV toV valueV vaV vbV : Option Jval) : Jval :=
  .obj (optField "from" fromV ++ optField "to" toV ++ optField "value" valueV ++
    optField "validAfter" vaV ++ optField "validBefore" vbV)

/-- An x402 `payload` object: optional signature plus an authorization. -/
def payloadObj (sigV : Option Jval) (auth : Jval) : Jval :=
  .obj (optField "signature" sigV ++ [("authorization", auth)])

/-- A proof header document with the x402 shape
`{payload: {signature, authorization: {from, to, value, validAfter,
validBefore}}}` in which every field may be absent. -/
def mkProofJ (fromV toV sigV valueV vaV vbV : Option Jval) : Jval :=
  .obj [("payload", payloadObj sigV (authObj fromV toV valueV vaV vbV))]

/-- The account-address shape the spec's §4.3 check 3 demands, in the
spec's words: a fixed `"0x"` prefix followed by a fixed-length (40
character, i.e. 20 byte) hexadecimal body.  Stated from the spec to be
compared with the source's actual check (`addrOk?`). -/
def specAccountAddress (s : String) : Bool :=
  let body := (s.data).drop 2
  startsWith0x s && body.length == 40 &&
    body.all (fun c => c.isDigit || ('a' ≤ c && c ≤ 'f') || ('A' ≤ c && c ≤ 'F'))

/-! ## Price calculator (order.ts lines 43-70)

JS number arithmetic is idealised as exact rational arithmetic;
`Math.round` is `⌊q + 1/2⌋` (JS rounds half toward +∞, which on the
non-negative currency amounts involved is also half-away-from-zero). -/

/-- A catalog entry (`menu.json` items have `id`, `name`, `price`). -/
structure MenuItem where
  id : String
  name : String
  price : ℚ
deriving DecidableEq, Repr

/-- The catalog (`menu.json`): three item categories and a tax policy. -/
structure Catalog where
  sandwiches : List MenuItem
  sides : List MenuItem
  drinks : List MenuItem
  taxRate : ℚ
  taxDescription : String
deriving DecidableEq, Repr

/-- The flattened catalog `[...menuData.sandwiches, ...menuData.sides, ...menuData.drinks]`. -/
def allItems (menu : Catalog) : List MenuItem :=
  menu.sandwiches ++ menu.sides ++ menu.drinks

/-- JS `Math.round` (round half toward +∞). -/
def jsRound (q : ℚ) : ℤ := ⌊q + 1/2⌋

/-- Rounding to 2 decimal places: `Math.round(q * 100) / 100`. -/
def round2 (q : ℚ) : ℚ := (jsRound (q * 100) : ℚ) / 100

/-- Result record of `calculateOrderTotal` (order.ts lines 32-38). -/
structure OrderDetails where
  items : List MenuItem
  subtotal : ℚ
  tax : ℚ
  total : ℚ
  totalInCents : ℤ
deriving DecidableEq, Repr

/-- The function `calculateOrderTotal` (order.ts lines 43-70): scan the requested ids
against the flattened catalog, keeping the first catalog match per id
occurrence and silently dropping unknown ids; sum the prices, apply the
tax rate, and round each amount once to 2 decimal places. -/
def calculateOrderTotal (menu : Catalog) (itemIds : List String) : OrderDetails :=
  let all := allItems menu
  let foundItems := itemIds.filterMap (fun id =>
    ((all.find? (fun i => i.id == id)).map (fun i =>
      ({ id := i.id, name := i.name, price := i.price } : MenuItem))))
  let subtotal := foundItems.foldl (fun sum item => sum + item.price) 0
  let tax := subtotal * menu.taxRate
  let total := subtotal + tax
  { items := foundItems
    subtotal := round2 subtotal
    tax := round2 tax
    total := round2 total
    totalInCents := jsRound (total * 100) }

/-! ## Order-id generation (order.ts line 321)

`const orderId = ` `PBC-` `${Date.now().toString(36).toUpperCase()}` `;`
`Date.now()` (milliseconds) is the explicit parameter `nowMs`. -/

/-- Digit `d < 36` in JS `toString(36).toUpperCase()` form: `0`-`9` then
`A`-`Z`. -/
def base36Char (d : Nat) : Char :=
  if d < 10 then Char.ofNat (48 + d) else Char.ofNat (55 + d)

/-- Most-significant-first base-36 digit expansion, prepended to `acc`;
structurally recursive on a fuel argument so that it evaluates by kernel
reduction (any `fuel` with `n < 36 ^ (fuel + 1)` yields all digits). -/
def toBase36Core : Nat → Nat → List Char → List Char
  | 0, n, acc => base36Char (n % 36) :: acc
  | fuel + 1, n, acc =>
    if n / 36 = 0 then base36Char (n % 36) :: acc
    else toBase36Core fuel (n / 36) (base36Char (n % 36) :: acc)

/-- JS `n.toString(36).toUpperCase()` for a natural number. -/
def toBase36 (n : Nat) : String :=
  String.mk (toBase36Core n n [])

/-- The minted order identifier for a creation timestamp in ms. -/
def mkOrderId (nowMs : Nat) : String := "PBC-" ++ toBase36 nowMs

/-! ## Order pipeline (order.ts lines 211-356) -/

/-- The request body's `customer` object; field presence is tested by the
source with truthiness, so string fields are optional here. -/
structure Customer where
  name : Option String
  phone : Option String
  email : Option String
deriving DecidableEq, Repr

/-- The request body's `delivery_address` object (only its presence is
checked by the pipeline). -/
structure DeliveryAddress where
  street : String
  city : String
  state : String
  zip : String
deriving DecidableEq, Repr

/-- The parsed `OrderRequest` body (order.ts lines 13-30); every field the
source tests with truthiness or optional chaining is optional. -/
structure OrderRequest where
  items : Option (List String)
  fulfillment : Option String
  customer : Option Customer
  pickup_time : Option String
  delivery_address : Option DeliveryAddress
  delivery_window : Option String
  location : Option String
deriving DecidableEq, Repr

/-- Truthiness of an optional string field. -/
def optStrTruthy (v : Option String) : Bool :=
  match v with
  | some s => s != ""
  | none => false

/-- The confirmed order (order.ts lines 323-348), restricted to the
fields the core constructs from its own data. -/
structure Order where
  orderId : String
  status : String
  customer : Customer
  fulfillment : String
  location : String
  pickup_time : Option String
  delivery_address : Option DeliveryAddress
  delivery_window : Option String
  items : List MenuItem
  subtotal : ℚ
  tax : ℚ
  taxDescription : String
  total : ℚ
  payFromAddress : Option String
  payToAddress : Option String
deriving DecidableEq, Repr

/-- The `orderPreview` object embedded in the 402 body (order.ts
lines 274-279). -/
structure OrderPreview where
  items : List MenuItem
  subtotal : ℚ
  tax : ℚ
  total : ℚ
deriving DecidableEq, Repr

/-- The possible responses of `POST /api/order`, one constructor per
`return c.json(...)` site of the handler. -/
inductive OrderResponse where
  | invalidJson                                       -- 400, line 219
  | noItems                                           -- 400, line 224
  | noValidItems (requestedIds : List String)         -- 400, line 231
  | provisioningFailed                                -- 500, line 247
  | paymentRequired (payTo : String) (preview : OrderPreview)  -- 402, line 255
  | invalidPayment (reason : Option VError)           -- 401, line 290
  | missingCustomer                                   -- 400, line 299
  | missingFulfillment                                -- 400, line 303
  | missingPickupTime                                 -- 400, line 308
  | missingDeliveryAddress                            -- 400, line 313
  | missingDeliveryWindow                             -- 400, line 316
  | created (order : Order)                           -- 201, line 355
deriving DecidableEq, Repr

/-- The `POST /api/order` handler (order.ts lines 211-356).

External effects appear as parameters: `body` is the JSON-parse result of
the request body (`none` = parse threw), `paymentHeader` the optional
`X-PAYMENT` header given by its decode result (as for
`verifyPaymentHeader`), `prov` the outcome of `createPayToAddress`
(`Except.error` = the provisioner threw), `now` the unix-seconds clock
read by the verifier and `nowMs` the `Date.now()` read minting the order
id. -/
def placeOrder (menu : Catalog) (body : Option OrderRequest)
    (paymentHeader : Option (Option Jval)) (prov : Except Unit String)
    (now : Int) (nowMs : Nat) : OrderResponse :=
  match body with
  | none => .invalidJson
  | some b =>
    match b.items with
    | none => .noItems
    | some ids =>
      if ids.isEmpty then .noItems
      else
        let orderDetails := calculateOrderTotal menu ids
        if orderDetails.items.isEmpty then .noValidItems ids
        else
          match paymentHeader with
          | none =>
            match prov with
            | .error _ => .provisioningFailed
            | .ok payToAddress =>
              .paymentRequired payToAddress
                { items := orderDetails.items
                  subtotal := orderDetails.subtotal
                  tax := orderDetails.tax
                  total := orderDetails.total }
          | some decoded =>
            let verification :=
              verifyPaymentHeader decoded orderDetails.totalInCents now
            if !verification.valid then .invalidPayment verification.error
            else
              let custName := b.customer.bind (·.name)
              let custPhone := b.customer.bind (·.phone)
              if !optStrTruthy custName || !optStrTruthy custPhone then
                .missingCustomer
              else if !optStrTruthy b.fulfillment then .missingFulfillment
              else
                let fulfillment := b.fulfillment.getD ""
                if fulfillment == "pickup" && !optStrTruthy b.pickup_time then
                  .missingPickupTime
                else if fulfillment == "delivery" && b.delivery_address.isNone then
                  .missingDeliveryAddress
                else if fulfillment == "delivery" && !optStrTruthy b.delivery_window then
                  .missingDeliveryWindow
                else
                  .created
                    { orderId := mkOrderId nowMs
                      status := "confirmed"
                      customer := b.customer.getD ⟨none, none, none⟩
                      fulfillment := fulfillment
                      location :=
                        match b.location with
                        | some l => if l != "" then l else "shop-1"
                        | none => "shop-1"
                      pickup_time := b.pickup_time
                      delivery_address := b.delivery_address
                      delivery_window := b.delivery_window
                      items := orderDetails.items
                      subtotal := orderDetails.subtotal
                      tax := orderDetails.tax
                      taxDescription := menu.taxDescription
                      total := orderDetails.total
                      payFromAddress := verification.fromAddress
                      payToAddress := verification.toAddress }

/-! ## Payment address provisioner (stripe.ts lines 41-105) -/

/-- The demo-mode placeholder address (stripe.ts line 8). -/
def DEMO_DEPOSIT_ADDRESS : String :=
  "0xDEMO_ADDRESS_SET_STRIPE_SECRET_KEY_FOR_REAL_PAYMENTS"

/-- The function `createPayToAddress` (stripe.ts lines 41-105).

`paymentHeader`: `none` = no header in the context (or a falsy one);
`some none` = a header on which base64/JSON decoding throws (the catch
falls through); `some (some d)` = a header decoding to `d`.  `demoMode`
models `!process.env.STRIPE_SECRET_KEY`; `backend` the outcome of the
Stripe PaymentIntent call (`Except.error` = it threw or returned no Base
deposit address). -/
def createPayToAddress (paymentHeader : Option (Option Jval))
    (demoMode : Bool) (backend : Except Unit String) : Except Unit String :=
  let headerAddress : Option String :=
    match paymentHeader with
    | some (some decoded) =>
      -- `decoded.payload?.authorization?.to`: access on a null `decoded`
      -- throws and the catch falls through; optional chaining handles the
      -- rest.
      if decoded.isNullV then none
      else
        match ((getField decoded "payload").bind (getField · "authorization")).bind
            (getField · "to") with
        | some (.str s) => if s != "" then some s else none  -- truthy + string
        | _ => none
    | _ => none
  match headerAddress with
  | some toAddress => .ok toAddress
  | none =>
    if demoMode then .ok DEMO_DEPOSIT_ADDRESS
    else backend

/-- The to-field extraction the spec's §4.2 describes ("decodes with a
usable destination address"): the value at `payload.authorization.to`
when it is a truthy string.  Stated separately to compare
`createPayToAddress` against it. -/
def usableToAddress (decoded : Jval) : Option String :=
  if decoded.isNullV then none
  else
    match ((getField decoded "payload").bind (getField · "authorization")).bind
        (getField · "to") with
    | some (.str s) => if s != "" then some s else none
    | _ => none

/-! ## Demo data for concrete instances

A small catalog realizing the spec's concrete scenario: items `brisket`
and `chips` have subtotal 12.50; with the 8.75% tax rate the total is
13.59 (1359 cents). -/

/-- A concrete catalog instance. -/
def demoMenu : Catalog :=
  { sandwiches := [{ id := "brisket", name := "Brisket", price := 9 }]
    sides := [{ id := "chips", name := "Chips", price := 7/2 }]
    drinks := [{ id := "soda", name := "Soda", price := 2 }]
    taxRate := 875/10000
    taxDescription := "Sales tax" }

/-- The spec's concrete proof header: `from 0xAAA..., to 0xBBB...,
value "13590000", signature "0xsig"`. -/
def demoProof : Jval :=
  mkProofJ (some (.str "0xAAA")) (some (.str "0xBBB")) (some (.str "0xsig"))
    (some (.str "13590000")) none none

/-- A well-formed pickup order request. -/
def demoReq : OrderRequest :=
  { items := some ["brisket", "chips"]
    fulfillment := some "pickup"
    customer := some { name := some "Alice", phone := some "555-1234", email := none }
    pickup_time := some "2026-02-12T12:30:00-05:00"
    delivery_address := none
    delivery_window := none
    location := none }

/-- The same order placed by a different customer. -/
def demoReqB : OrderRequest :=
  { demoReq with
    customer := some { name := some "Bob", phone := some "555-9999", email := none } }

/-! ## The verifier on structured proof headers

`verifyFields` restates the tail of the verifier directly on the six
authorization/payload fields; `verifyPaymentHeader_mkProofJ` proves that
on an `mkProofJ` document the source-shaped verifier computes exactly
this, which the per-claim theorems then analyse. -/

/-- The verifier's checks after the address checks have passed, on the
remaining fields of an x402 document. -/
def verifyTail (fromAddress toAddress : String) (sv vv vaV vbV : Option Jval)
    (now : Int) : VResult :=
  if !sigOk sv then vfail .missingSignature
  else
    let amount? : Option (Option Int) :=
      match vv with
      | some v =>
        if truthy v then
          match parseBigInt? (toStringJ v) with
          | some usdcUnits => some (some (usdcUnits.tdiv 10000))
          | none => none
        else some none
      | none => some none
    match amount? with
    | none => vfail .malformed
    | some amountCents =>
      if !timeOkAfter vaV now then vfail .notYetValid
      else if !timeOkBefore vbV now then vfail .expired
      else
        { valid := true
          fromAddress := some fromAddress
          toAddress := some toAddress
          amountCents := amountCents
          error := none }

/-- The verifier's per-field checks, on the fields of an x402 document
(whose `payload` and `authorization` objects are present and truthy by
construction). -/
def verifyFields (fv tv sv vv vaV vbV : Option Jval) (now : Int) : VResult :=
  match addrOk? fv with
  | none => vfail .invalidFrom
  | some fromAddress =>
    match addrOk? tv with
    | none => vfail .invalidTo
    | some toAddress => verifyTail fromAddress toAddress sv vv vaV vbV now

/-- The post-address checks can only produce these verdicts. -/
theorem verifyTail_error_cases (f t : String) (sv vv vaV vbV : Option Jval)
    (now : Int) :
    (verifyTail f t sv vv vaV vbV now).error = none ∨
    (verifyTail f t sv vv vaV vbV now).error = some .missingSignature ∨
    (verifyTail f t sv vv vaV vbV now).error = some .malformed ∨
    (verifyTail f t sv vv vaV vbV now).error = some .notYetValid ∨
    (verifyTail f t sv vv vaV vbV now).error = some .expired := by
  unfold verifyTail
  repeat' split
  all_goals simp [vfail]

theorem find?_optField_ne (v : Option Jval) (k k' : String)
    (rest : List (String × Jval)) (h : (k' == k) = false) :
    (optField k' v ++ rest).find? (fun f => f.1 == k) =
      rest.find? (fun f => f.1 == k) := by
  cases v <;> simp [optField, h]

theorem getField_mkProofJ_payload (fv tv sv vv vaV vbV : Option Jval) :
    getField (mkProofJ fv tv sv vv vaV vbV) "payload" =
      some (payloadObj sv (authObj fv tv vv vaV vbV)) := rfl

theorem isNullV_mkProofJ (fv tv sv vv vaV vbV : Option Jval) :
    (mkProofJ fv tv sv vv vaV vbV).isNullV = false := rfl

theorem getField_payloadObj_auth (sv : Option Jval) (auth : Jval) :
    getField (payloadObj sv auth) "authorization" = some auth := by
  cases sv <;> simp [payloadObj, optField, getField]

theorem getField_payloadObj_sig (sv : Option Jval) (auth : Jval) :
    getField (payloadObj sv auth) "signature" = sv := by
  cases sv <;> simp [payloadObj, optField, getField]

theorem find?_optField_self (w : Jval) (k : String) (rest : List (String × Jval)) :
    (optField k (some w) ++ rest).find? (fun f => f.1 == k) = some (k, w) := by
  simp [optField]

theorem getField_authObj_from (fv tv vv vaV vbV : Option Jval) :
    getField (authObj fv tv vv vaV vbV) "from" = fv := by
  cases fv
  · rw [show (authObj none tv vv vaV vbV) = Jval.obj
        (optField "to" tv ++ (optField "value" vv ++ (optField "validAfter" vaV ++
          (optField "validBefore" vbV ++ [])))) by simp [authObj, optField]]
    rw [getField, find?_optField_ne tv "from" "to" _ (by decide),
      find?_optField_ne vv "from" "value" _ (by decide),
      find?_optField_ne vaV "from" "validAfter" _ (by decide),
      find?_optField_ne vbV "from" "validBefore" _ (by decide)]
    rfl
  · simp [authObj, getField, optField]

theorem getField_authObj_to (fv tv vv vaV vbV : Option Jval) :
    getField (authObj fv tv vv vaV vbV) "to" = tv := by
  rw [show (authObj fv tv vv vaV vbV) = Jval.obj
      (optField "from" fv ++ (optField "to" tv ++ (optField "value" vv ++
        (optField "validAfter" vaV ++ (optField "validBefore" vbV ++ []))))) by
    simp [authObj, optField]]
  rw [getField, find?_optField_ne fv "to" "from" _ (by decide)]
  cases tv
  · rw [show optField "to" none ++ (optField "value" vv ++ (optField "validAfter" vaV ++
        (optField "validBefore" vbV ++ []))) = optField "value" vv ++
        (optField "validAfter" vaV ++ (optField "validBefore" vbV ++ [])) by
      simp [optField]]
    rw [find?_optField_ne vv "to" "value" _ (by decide),
      find?_optField_ne vaV "to" "validAfter" _ (by decide),
      find?_optField_ne vbV "to" "validBefore" _ (by decide)]
    rfl
  · rw [find?_optField_self]
    rfl

theorem getField_authObj_value (fv tv vv vaV vbV : Option Jval) :
    getField (authObj fv tv vv vaV vbV) "value" = vv := by
  rw [show (authObj fv tv vv vaV vbV) = Jval.obj
      (optField "from" fv ++ (optField "to" tv ++ (optField "value" vv ++
        (optField "validAfter" vaV ++ (optField "validBefore" vbV ++ []))))) by
    simp [authObj, optField]]
  rw [getField, find?_optField_ne fv "value" "from" _ (by decide),
    find?_optField_ne tv "value" "to" _ (by decide)]
  cases vv
  · rw [show optField "value" none ++ (optField "validAfter" vaV ++
        (optField "validBefore" vbV ++ [])) = optField "validAfter" vaV ++
        (optField "validBefore" vbV ++ []) by simp [optField]]
    rw [find?_optField_ne vaV "value" "validAfter" _ (by decide),
      find?_optField_ne vbV "value" "validBefore" _ (by decide)]
    rfl
  · rw [find?_optField_self]
    rfl

theorem getField_authObj_validAfter (fv tv vv vaV vbV : Option Jval) :
    getField (authObj fv tv vv vaV vbV) "validAfter" = vaV := by
  rw [show (authObj fv tv vv vaV vbV) = Jval.obj
      (optField "from" fv ++ (optField "to" tv ++ (optField "value" vv ++
        (optField "validAfter" vaV ++ (optField "validBefore" vbV ++ []))))) by
    simp [authObj, optField]]
  rw [getField, find?_optField_ne fv "validAfter" "from" _ (by decide),
    find?_optField_ne tv "validAfter" "to" _ (by decide),
    find?_optField_ne vv "validAfter" "value" _ (by decide)]
  cases vaV
  · rw [show optField "validAfter" none ++ (optField "validBefore" vbV ++ []) =
        optField "validBefore" vbV ++ [] by simp [optField]]
    rw [find?_optField_ne vbV "validAfter" "validBefore" _ (by decide)]
    rfl
  · rw [find?_optField_self]
    rfl

theorem getField_authObj_validBefore (fv tv vv vaV vbV : Option Jval) :
    getField (authObj fv tv vv vaV vbV) "validBefore" = vbV := by
  rw [show (authObj fv tv vv vaV vbV) = Jval.obj
      (optField "from" fv ++ (optField "to" tv ++ (optField "value" vv ++
        (optField "validAfter" vaV ++ (optField "validBefore" vbV ++ []))))) by
    simp [authObj, optField]]
  rw [getField, find?_optField_ne fv "validBefore" "from" _ (by decide),
    find?_optField_ne tv "validBefore" "to" _ (by decide),
    find?_optField_ne vv "validBefore" "value" _ (by decide),
    find?_optField_ne vaV "validBefore" "validAfter" _ (by decide)]
  cases vbV
  · rfl
  · rw [find?_optField_self]
    rfl

theorem truthy_payloadObj (sv : Option Jval) (auth : Jval) :
    truthy (payloadObj sv auth) = true := rfl

theorem truthy_authObj (fv tv vv vaV vbV : Option Jval) :
    truthy (authObj fv tv vv vaV vbV) = true := rfl

theorem optTruthy_some (v : Jval) : optTruthy (some v) = truthy v := rfl

theorem verifyPaymentHeader_mkProofJ (fv tv sv vv vaV vbV : Option Jval)
    (e now : Int) :
    verifyPaymentHeader (some (mkProofJ fv tv sv vv vaV vbV)) e now =
      verifyFields fv tv sv vv vaV vbV now := by
  simp only [verifyPaymentHeader, verifyFields, verifyTail, isNullV_mkProofJ,
    getField_mkProofJ_payload, Option.some_bind, getField_payloadObj_auth,
    getField_payloadObj_sig, getField_authObj_from, getField_authObj_to,
    getField_authObj_value, getField_authObj_validAfter,
    getField_authObj_validBefore, optTruthy_some, truthy_payloadObj,
    truthy_authObj, Bool.not_true, Bool.false_eq_true, if_false]

end Pbc

namespace Pbc

/-! ## Claim C1 -/

/-- Claim C1: every proof header passing the structural checks (decodes,
payload, authorization, `0x`-prefixed string `from`/`to`, string
signature) whose time window admits `now` verifies as `valid = true`
regardless of how far the claimed amount is from `expectedAmountCents`:
the authorization `value` is converted from 6-decimal asset units to
cents by truncating integer division by `10^4`, and a mismatch beyond
the 1-cent tolerance only logs a warning, never an invalid result (the
verdict does not depend on `expected` at all). -/
theorem claim_C1_amount_mismatch_never_invalidates
    (f t sg vs : String) (units expected now : Int) (vaV vbV : Option Jval)
    (hf : startsWith0x f = true) (ht : startsWith0x t = true)
    (hsg : sg ≠ "") (hvs : vs ≠ "")
    (hparse : parseBigInt? vs = some units)
    (hva : timeOkAfter vaV now = true) (hvb : timeOkBefore vbV now = true) :
    verifyPaymentHeader
        (some (mkProofJ (some (.str f)) (some (.str t)) (some (.str sg))
          (some (.str vs)) vaV vbV)) expected now =
      { valid := true, fromAddress := some f, toAddress := some t,
        amountCents := some (units.tdiv 10000), error := none } := by
  rw [verifyPaymentHeader_mkProofJ]
  simp [verifyFields, verifyTail, addrOk?, hf, ht, sigOk, bne_iff_ne, hsg,
    truthy, hvs, toStringJ, hparse, hva, hvb]

/-- Witness for C1: the spec's concrete proof (`value "13590000"`)
verifies against a wildly different expected amount of 999999 cents, with
the conversion `13590000 / 10^4 = 1359`. -/
theorem claim_C1_witness :
    verifyPaymentHeader (some demoProof) 999999 100 =
      { valid := true, fromAddress := some "0xAAA", toAddress := some "0xBBB",
        amountCents := some 1359, error := none } := by
  have h := claim_C1_amount_mismatch_never_invalidates "0xAAA" "0xBBB" "0xsig"
    "13590000" 13590000 999999 100 none none (by decide) (by decide)
    (by decide) (by decide) (by decide) (by decide) (by decide)
  have hc : ((13590000 : Int).tdiv 10000) = 1359 := by decide
  rw [demoProof, h, hc]

end Pbc

namespace Pbc

/-! ## Claim C3 -/

/-- A proof whose addresses are `"0x"`-prefixed but in no way fixed-length
hexadecimal account addresses. -/
def nonHexProof : Jval :=
  mkProofJ (some (.str "0xZZ")) (some (.str "0xQQ")) (some (.str "0xsig"))
    none none none

/-- Claim C3, counterexample: the claim says verification proceeds past the
address check only when `from`/`to` are `"0x"` plus a fixed-length hex
body.  But a proof whose addresses `"0xZZ"`/`"0xQQ"` have no hexadecimal
body of any fixed length verifies fully (`valid = true`): the code checks
only the `"0x"` prefix. -/
theorem claim_C3_counterexample :
    (verifyPaymentHeader (some nonHexProof) 0 0).valid = true ∧
    specAccountAddress "0xZZ" = false ∧ specAccountAddress "0xQQ" = false := by
  refine ⟨?_, by decide, by decide⟩
  rw [nonHexProof, verifyPaymentHeader_mkProofJ]
  decide

/-- Claim C3, amended: `verifyPaymentHeader` rejects with the
invalid-address reasons exactly those structured proofs whose `from`
(resp. `to`) field is absent, not string-typed, or a string not starting
with `"0x"`; no length or hexadecimal-body check is performed, so
verification proceeds past the address check whenever both fields are
strings starting with `"0x"` (`addrOk?`). -/
theorem claim_C3_amended (fv tv sv vv vaV vbV : Option Jval) (e now : Int) :
    ((verifyPaymentHeader (some (mkProofJ fv tv sv vv vaV vbV)) e now).error =
        some .invalidFrom ↔ addrOk? fv = none) ∧
    ((verifyPaymentHeader (some (mkProofJ fv tv sv vv vaV vbV)) e now).error =
        some .invalidTo ↔ (addrOk? fv).isSome ∧ addrOk? tv = none) := by
  rw [verifyPaymentHeader_mkProofJ]
  unfold verifyFields
  cases hf : addrOk? fv with
  | none => simp [vfail]
  | some f =>
    cases ht : addrOk? tv with
    | none => simp [vfail]
    | some t =>
      simp only [Option.isSome_some, true_and]
      rcases verifyTail_error_cases f t sv vv vaV vbV now with h | h | h | h | h <;>
        simp [h]

end Pbc

namespace Pbc

/-! ## Claim C4 -/

/-- Claim C4, counterexample: the claim says a well-formed proof with
`validBefore` in the past is always rejected as expired.  But a fully
well-formed proof carrying `validBefore: 0` — an instant in the past of
`now = 1000` — verifies as valid: the code tests presence by truthiness
and `0` is falsy. -/
theorem claim_C4_counterexample :
    verifyPaymentHeader (some (mkProofJ (some (.str "0xA")) (some (.str "0xB"))
        (some (.str "0xsig")) none none (some (.num 0)))) 0 1000 =
      { valid := true, fromAddress := some "0xA", toAddress := some "0xB",
        amountCents := none, error := none } ∧ (0 : Int) < 1000 := by
  refine ⟨?_, by decide⟩
  rw [verifyPaymentHeader_mkProofJ]
  decide

/-- Claim C4, amended: for structurally valid proofs whose `validAfter` and
`validBefore` are *nonzero* numbers (zero is falsy, hence treated as
absent), the verifier fails with the not-yet-valid reason exactly when
`now < validAfter` (checked first), otherwise with the expired reason
exactly when `now > validBefore`, and otherwise passes the time window. -/
theorem claim_C4_amended (f t sg : String) (a b expected now : Int)
    (hf : startsWith0x f = true) (ht : startsWith0x t = true) (hsg : sg ≠ "")
    (ha : a ≠ 0) (hb : b ≠ 0) :
    (verifyPaymentHeader (some (mkProofJ (some (.str f)) (some (.str t))
        (some (.str sg)) none (some (.num a)) (some (.num b)))) expected now).error =
      (if now < a then some .notYetValid
       else if b < now then some .expired else none) := by
  rw [verifyPaymentHeader_mkProofJ]
  simp only [verifyFields, verifyTail, addrOk?, hf, if_true, sigOk,
    bne_iff_ne, ne_eq, hsg, not_false_eq_true, Bool.not_true,
    timeOkAfter, timeOkBefore, truthy, jsLtB, jsGtB, toNum?]
  by_cases hlt : now < a <;> by_cases hgt : b < now <;>
    simp [hlt, hgt, ha, hb, ht, hsg, bne_iff_ne, vfail]

/-- Witness for C4 (amended): a proof with `validAfter = 5`,
`validBefore = 10` checked at `now = 20` is rejected as expired. -/
theorem claim_C4_witness :
    (verifyPaymentHeader (some (mkProofJ (some (.str "0xA")) (some (.str "0xB"))
        (some (.str "0xsig")) none (some (.num 5)) (some (.num 10)))) 0 20).error =
      some .expired := by
  have h := claim_C4_amended "0xA" "0xB" "0xsig" 5 10 0 20 (by decide) (by decide)
    (by decide) (by decide) (by decide)
  simpa using h

/-! ## Claim C10 -/

/-- Claim C10: the presence of the time-window fields is tested by
truthiness, so `validAfter: 0` and `validBefore: 0` behave exactly as if
the field were absent: (1) a proof with both fields zero verifies
identically to the same proof без either field; (2) likewise for each
field alone; (3) in particular an otherwise well-formed proof with
`validBefore: 0` — an instant in the past of `now = 99999` — is not
rejected as expired but verifies as valid. -/
theorem claim_C10_zero_time_fields_treated_as_absent :
    (∀ (fv tv sv vv : Option Jval) (e now : Int),
      verifyPaymentHeader
          (some (mkProofJ fv tv sv vv (some (.num 0)) (some (.num 0)))) e now =
        verifyPaymentHeader (some (mkProofJ fv tv sv vv none none)) e now) ∧
    (∀ (fv tv sv vv vbV : Option Jval) (e now : Int),
      verifyPaymentHeader
          (some (mkProofJ fv tv sv vv (some (.num 0)) vbV)) e now =
        verifyPaymentHeader (some (mkProofJ fv tv sv vv none vbV)) e now) ∧
    (∀ (fv tv sv vv vaV : Option Jval) (e now : Int),
      verifyPaymentHeader
          (some (mkProofJ fv tv sv vv vaV (some (.num 0)))) e now =
        verifyPaymentHeader (some (mkProofJ fv tv sv vv vaV none)) e now) ∧
    verifyPaymentHeader (some (mkProofJ (some (.str "0xA")) (some (.str "0xB"))
        (some (.str "0xsig")) none none (some (.num 0)))) 0 99999 =
      { valid := true, fromAddress := some "0xA", toAddress := some "0xB",
        amountCents := none, error := none } := by
  have hz : ∀ now : Int, (timeOkAfter (some (.num 0)) now = timeOkAfter none now) ∧
      (timeOkBefore (some (.num 0)) now = timeOkBefore none now) := by
    intro now
    constructor <;> simp [timeOkAfter, timeOkBefore, truthy]
  refine ⟨?_, ?_, ?_, ?_⟩
  · intro fv tv sv vv e now
    rw [verifyPaymentHeader_mkProofJ, verifyPaymentHeader_mkProofJ]
    unfold verifyFields verifyTail
    rw [(hz now).1, (hz now).2]
  · intro fv tv sv vv vbV e now
    rw [verifyPaymentHeader_mkProofJ, verifyPaymentHeader_mkProofJ]
    unfold verifyFields verifyTail
    rw [(hz now).1]
  · intro fv tv sv vv vaV e now
    rw [verifyPaymentHeader_mkProofJ, verifyPaymentHeader_mkProofJ]
    unfold verifyFields verifyTail
    rw [(hz now).2]
  · rw [verifyPaymentHeader_mkProofJ]
    decide

end Pbc

namespace Pbc

/-! ## Claim C2 -/

/-- Claim C2: the verifier performs its checks in the spec's fixed order —
decode, payload presence, authorization presence, `from`/`to` address
shape, signature presence, amount reconciliation (whose only possible
failure is a `BigInt` parse throw, reported with the malformed-proof
reason; a mere amount mismatch never fails), then the time window — and
the first failing check determines the error reason
(`specVerifyError`, built as the first failure of the ordered
`specCheckList`); an undecodable header (`decoded = none`) always yields
an invalid result with the malformed-proof reason.  The function is a
total Lean function of its input, so no input crashes it. -/
theorem claim_C2_ordered_checks_first_failure_reason
    (decoded : Option Jval) (e now : Int) :
    (verifyPaymentHeader decoded e now).error = specVerifyError decoded now ∧
    (verifyPaymentHeader decoded e now).valid
      = (specVerifyError decoded now).isNone := by
  cases decoded with
  | none => simp [verifyPaymentHeader, specVerifyError, vfail]
  | some d =>
    cases hnull : d.isNullV
    · cases hp : optTruthy (getField d "payload")
      · simp [verifyPaymentHeader, specVerifyError, specCheckList, firstFailure,
          hnull, hp, vfail]
      · cases hauth : optTruthy ((getField d "payload").bind (getField · "authorization"))
        · simp [verifyPaymentHeader, specVerifyError, specCheckList, firstFailure,
            hnull, hp, hauth, vfail]
        · cases haf : addrOk? (((getField d "payload").bind
              (getField · "authorization")).bind (getField · "from"))
          · simp [verifyPaymentHeader, specVerifyError, specCheckList, firstFailure,
              hnull, hp, hauth, haf, vfail]
          · cases hat : addrOk? (((getField d "payload").bind
                (getField · "authorization")).bind (getField · "to"))
            · simp [verifyPaymentHeader, specVerifyError, specCheckList, firstFailure,
                hnull, hp, hauth, haf, hat, vfail]
            · cases hsig : sigOk ((getField d "payload").bind (getField · "signature"))
              · simp [verifyPaymentHeader, specVerifyError, specCheckList, firstFailure,
                  hnull, hp, hauth, haf, hat, hsig, vfail]
              · cases hv : ((getField d "payload").bind
                    (getField · "authorization")).bind (getField · "value") with
                | none =>
                  cases hta : timeOkAfter (((getField d "payload").bind
                      (getField · "authorization")).bind (getField · "validAfter")) now <;>
                    cases htb : timeOkBefore (((getField d "payload").bind
                      (getField · "authorization")).bind (getField · "validBefore")) now <;>
                    simp [verifyPaymentHeader, specVerifyError, specCheckList,
                      firstFailure, hnull, hp, hauth, haf, hat, hsig, hv, hta, htb,
                      vfail]
                | some v =>
                  cases htr : truthy v
                  · cases hta : timeOkAfter (((getField d "payload").bind
                        (getField · "authorization")).bind (getField · "validAfter")) now <;>
                      cases htb : timeOkBefore (((getField d "payload").bind
                        (getField · "authorization")).bind (getField · "validBefore")) now <;>
                      simp [verifyPaymentHeader, specVerifyError, specCheckList,
                        firstFailure, hnull, hp, hauth, haf, hat, hsig, hv, htr,
                        hta, htb, vfail]
                  · cases hpb : parseBigInt? (toStringJ v) with
                    | none =>
                      simp [verifyPaymentHeader, specVerifyError, specCheckList,
                        firstFailure, hnull, hp, hauth, haf, hat, hsig, hv, htr,
                        hpb, vfail]
                    | some u =>
                      cases hta : timeOkAfter (((getField d "payload").bind
                          (getField · "authorization")).bind (getField · "validAfter")) now <;>
                        cases htb : timeOkBefore (((getField d "payload").bind
                          (getField · "authorization")).bind (getField · "validBefore")) now <;>
                        simp [verifyPaymentHeader, specVerifyError, specCheckList,
                          firstFailure, hnull, hp, hauth, haf, hat, hsig, hv, htr,
                          hpb, hta, htb, vfail]
    · simp [verifyPaymentHeader, specVerifyError, specCheckList, firstFailure,
        hnull, vfail]

end Pbc

namespace Pbc

/-! ## Claim C5 -/

theorem jsRound_int_add (n : ℤ) (q : ℚ) : jsRound ((n : ℚ) + q) = n + jsRound q := by
  unfold jsRound
  rw [add_assoc, add_comm ((n : ℚ)) _, Int.floor_add_int, add_comm]

theorem jsRound_intCast (n : ℤ) : jsRound (n : ℚ) = n := by
  unfold jsRound
  rw [add_comm, Int.floor_add_int]
  norm_num

theorem round2_int_div (N : ℤ) : round2 ((N : ℚ) / 100) = (N : ℚ) / 100 := by
  unfold round2
  rw [div_mul_cancel₀ _ (by norm_num : (100 : ℚ) ≠ 0), jsRound_intCast]

theorem round2_intdiv_add (N : ℤ) (q : ℚ) :
    round2 ((N : ℚ) / 100 + q) = (N : ℚ) / 100 + round2 q := by
  unfold round2
  rw [add_mul, div_mul_cancel₀ _ (by norm_num : (100 : ℚ) ≠ 0), jsRound_int_add]
  push_cast
  ring

theorem foldl_add_map (l : List MenuItem) (a : ℚ) :
    l.foldl (fun sum item => sum + item.price) a = a + (l.map MenuItem.price).sum := by
  induction l generalizing a with
  | nil => simp
  | cons x xs ih => simp [ih, add_assoc]

theorem cent_sum (l : List MenuItem)
    (hp : ∀ it ∈ l, ∃ n : ℤ, it.price = (n : ℚ) / 100) :
    ∃ N : ℤ, (l.map MenuItem.price).sum = (N : ℚ) / 100 := by
  induction l with
  | nil => exact ⟨0, by simp⟩
  | cons x xs ih =>
    obtain ⟨n, hn⟩ := hp x (by simp)
    obtain ⟨N, hN⟩ := ih (fun it hit => hp it (by simp [hit]))
    refine ⟨n + N, ?_⟩
    simp only [List.map_cons, List.sum_cons, hn, hN]
    push_cast
    ring

theorem mem_calc_items (menu : Catalog) (ids : List String) (it : MenuItem)
    (h : it ∈ (calculateOrderTotal menu ids).items) :
    ∃ m ∈ allItems menu, m.id = it.id ∧ m.name = it.name ∧ m.price = it.price := by
  simp only [calculateOrderTotal, List.mem_filterMap, Option.map_eq_some'] at h
  obtain ⟨id, -, m, hfind, hproj⟩ := h
  refine ⟨m, List.mem_of_find?_eq_some hfind, ?_, ?_, ?_⟩ <;>
    simp [← hproj]

theorem calc_subtotal (menu : Catalog) (ids : List String) :
    (calculateOrderTotal menu ids).subtotal =
      round2 (((calculateOrderTotal menu ids).items.map MenuItem.price).sum) := by
  simp [calculateOrderTotal, foldl_add_map]

theorem calc_tax (menu : Catalog) (ids : List String) :
    (calculateOrderTotal menu ids).tax =
      round2 ((((calculateOrderTotal menu ids).items.map MenuItem.price).sum) *
        menu.taxRate) := by
  simp [calculateOrderTotal, foldl_add_map]

theorem calc_total (menu : Catalog) (ids : List String) :
    (calculateOrderTotal menu ids).total =
      round2 ((((calculateOrderTotal menu ids).items.map MenuItem.price).sum) +
        (((calculateOrderTotal menu ids).items.map MenuItem.price).sum) *
          menu.taxRate) := by
  simp [calculateOrderTotal, foldl_add_map]

/-- Claim C5: for every catalog whose item prices are (non-negative) whole
numbers of cents — decimal currency amounts — and whose tax rate is a
non-negative fraction, and every id sequence (duplicates included), the
returned summary satisfies `total = round2 (subtotal + tax)` and
`tax = round2 (subtotal * rate)` in terms of the returned 2-decimal
fields, rounding applied once. -/
theorem claim_C5_rounding_invariants (menu : Catalog) (ids : List String)
    (hp : ∀ m ∈ allItems menu, ∃ n : ℕ, m.price = (n : ℚ) / 100)
    (hr : 0 ≤ menu.taxRate) :
    (calculateOrderTotal menu ids).total =
      round2 ((calculateOrderTotal menu ids).subtotal +
        (calculateOrderTotal menu ids).tax) ∧
    (calculateOrderTotal menu ids).tax =
      round2 ((calculateOrderTotal menu ids).subtotal * menu.taxRate) := by
  obtain ⟨N, hN⟩ := cent_sum ((calculateOrderTotal menu ids).items)
    (fun it hit => by
      obtain ⟨m, hm, -, -, hpr⟩ := mem_calc_items menu ids it hit
      obtain ⟨n, hn⟩ := hp m hm
      exact ⟨(n : ℤ), by rw [← hpr, hn]; push_cast; ring⟩)
  have hsub : (calculateOrderTotal menu ids).subtotal = (N : ℚ) / 100 := by
    rw [calc_subtotal, hN, round2_int_div]
  have htax : (calculateOrderTotal menu ids).tax =
      round2 (((N : ℚ) / 100) * menu.taxRate) := by
    rw [calc_tax, hN]
  constructor
  · rw [calc_total, hN, hsub, htax, round2_intdiv_add]
    have hM : round2 (((N : ℚ) / 100) * menu.taxRate) =
        ((jsRound ((((N : ℚ) / 100) * menu.taxRate) * 100) : ℤ) : ℚ) / 100 := rfl
    rw [hM]
    rw [show (N : ℚ) / 100 + ((jsRound ((((N : ℚ) / 100) * menu.taxRate) * 100) : ℤ) : ℚ) / 100 =
        ((N + jsRound ((((N : ℚ) / 100) * menu.taxRate) * 100) : ℤ) : ℚ) / 100 by
      push_cast; ring]
    rw [round2_int_div]
  · rw [htax, hsub]

/-- Witness for C5: the demo catalog (whole-cent prices, 8.75% tax) with
a duplicated id. -/
theorem claim_C5_witness :
    (calculateOrderTotal demoMenu ["brisket", "chips", "brisket"]).total =
      round2 ((calculateOrderTotal demoMenu ["brisket", "chips", "brisket"]).subtotal +
        (calculateOrderTotal demoMenu ["brisket", "chips", "brisket"]).tax) ∧
    (calculateOrderTotal demoMenu ["brisket", "chips", "brisket"]).tax =
      round2 ((calculateOrderTotal demoMenu ["brisket", "chips", "brisket"]).subtotal *
        demoMenu.taxRate) := by
  refine claim_C5_rounding_invariants demoMenu _ ?_ (by norm_num [demoMenu])
  intro m hm
  simp only [allItems, demoMenu, List.mem_append, List.mem_singleton] at hm
  rcases hm with (h | h) | h
  · exact ⟨900, by rw [h]; norm_num⟩
  · exact ⟨350, by rw [h]; norm_num⟩
  · exact ⟨200, by rw [h]; norm_num⟩

end Pbc

namespace Pbc

/-! ## Claim C6 -/

/-- Claim C6: a request with no proof header whose items resolve to a
non-empty line-item list (and for which the provisioner returns an
address) yields the payment-required response whose `orderPreview`
subtotal, tax and total are exactly the fields of a direct
`calculateOrderTotal` call on the same id sequence. -/
theorem claim_C6_preview_matches_calculator (menu : Catalog) (req : OrderRequest)
    (ids : List String) (addr : String) (now : Int) (nowMs : Nat)
    (hitems : req.items = some ids) (hne : ids.isEmpty = false)
    (hfound : (calculateOrderTotal menu ids).items.isEmpty = false) :
    placeOrder menu (some req) none (.ok addr) now nowMs =
      .paymentRequired addr
        { items := (calculateOrderTotal menu ids).items
          subtotal := (calculateOrderTotal menu ids).subtotal
          tax := (calculateOrderTotal menu ids).tax
          total := (calculateOrderTotal menu ids).total } := by
  simp [placeOrder, hitems, hne, hfound]

/-- Witness for C6: the demo order without a payment header. -/
theorem claim_C6_witness :
    placeOrder demoMenu (some demoReq) none (.ok "0xDEP") 100 777 =
      .paymentRequired "0xDEP"
        { items := (calculateOrderTotal demoMenu ["brisket", "chips"]).items
          subtotal := (calculateOrderTotal demoMenu ["brisket", "chips"]).subtotal
          tax := (calculateOrderTotal demoMenu ["brisket", "chips"]).tax
          total := (calculateOrderTotal demoMenu ["brisket", "chips"]).total } :=
  claim_C6_preview_matches_calculator demoMenu demoReq ["brisket", "chips"]
    "0xDEP" 100 777 rfl (by decide) (by decide)

/-! ## Claim C8 -/

/-- Claim C8: the price calculator silently drops unknown ids (no error
variant exists in its result type): every priced line comes from a
catalog item with the same id, name and price; an id sequence in which
every id misses the catalog yields an empty item list; the scan
distributes over appending id sequences — so items appear in scan order
and each duplicate occurrence of an id contributes its own line — and
the function is pure (re-running it yields the identical result). -/
theorem claim_C8_unknown_ids_dropped_scan_order (menu : Catalog) (ids : List String) :
    (∀ it ∈ (calculateOrderTotal menu ids).items,
      ∃ m ∈ allItems menu, m.id = it.id ∧ m.name = it.name ∧ m.price = it.price) ∧
    ((∀ id ∈ ids, (allItems menu).find? (fun i => i.id == id) = none) →
      (calculateOrderTotal menu ids).items = []) ∧
    (∀ ids₂ : List String, (calculateOrderTotal menu (ids ++ ids₂)).items =
      (calculateOrderTotal menu ids).items ++ (calculateOrderTotal menu ids₂).items) ∧
    calculateOrderTotal menu ids = calculateOrderTotal menu ids := by
  refine ⟨fun it hit => mem_calc_items menu ids it hit, ?_, ?_, rfl⟩
  · intro hall
    simp only [calculateOrderTotal]
    rw [List.filterMap_eq_nil_iff]
    intro id hid
    rw [hall id hid]
    rfl
  · intro ids₂
    simp [calculateOrderTotal, List.filterMap_append]

/-- Witness for C8: an unknown id yields no lines; the scan distributes
over an append of two known ids. -/
theorem claim_C8_witness :
    (calculateOrderTotal demoMenu ["mystery"]).items = [] ∧
    (calculateOrderTotal demoMenu (["brisket"] ++ ["soda"])).items =
      (calculateOrderTotal demoMenu ["brisket"]).items ++
        (calculateOrderTotal demoMenu ["soda"]).items :=
  ⟨(claim_C8_unknown_ids_dropped_scan_order demoMenu ["mystery"]).2.1
      (by intro id hid; simp only [List.mem_singleton] at hid; subst hid; decide),
    (claim_C8_unknown_ids_dropped_scan_order demoMenu ["brisket"]).2.2.1 ["soda"]⟩

end Pbc

namespace Pbc

/-! ## Claim C7 -/

/-- Numeric value of a base-36 digit character (inverse of `base36Char`). -/
def b36val (c : Char) : Nat :=
  if c.toNat ≤ 57 then c.toNat - 48 else c.toNat - 55

/-- Horner evaluation of base-36 digits, most significant first. -/
def valFrom (a : Nat) (l : List Char) : Nat :=
  l.foldl (fun acc c => acc * 36 + b36val c) a

theorem b36val_base36Char : ∀ d < 36, b36val (base36Char d) = d := by decide

theorem valFrom_toBase36Core :
    ∀ (fuel n : Nat) (acc : List Char), n < 36 ^ (fuel + 1) →
      valFrom 0 (toBase36Core fuel n acc) = valFrom n acc := by
  intro fuel
  induction fuel with
  | zero =>
    intro n acc h
    have hn : n < 36 := by simpa using h
    simp only [toBase36Core, valFrom, List.foldl_cons]
    rw [b36val_base36Char _ (Nat.mod_lt _ (by norm_num)),
      Nat.mod_eq_of_lt hn]
    norm_num
  | succ fuel ih =>
    intro n acc h
    simp only [toBase36Core]
    by_cases h0 : n / 36 = 0
    · have hn : n < 36 := by
        have := (Nat.div_eq_zero_iff (by norm_num : 0 < 36)).mp h0
        omega
      simp only [h0, if_true, valFrom, List.foldl_cons]
      rw [b36val_base36Char _ (Nat.mod_lt _ (by norm_num)),
        Nat.mod_eq_of_lt hn]
      norm_num
    · simp only [h0, if_false]
      rw [ih (n / 36) (base36Char (n % 36) :: acc)
        (by
          rw [Nat.div_lt_iff_lt_mul (by norm_num : 0 < 36)]
          calc n < 36 ^ (fuel + 1 + 1) := h
            _ = 36 ^ (fuel + 1) * 36 := by ring)]
      simp only [valFrom, List.foldl_cons]
      rw [b36val_base36Char _ (Nat.mod_lt _ (by norm_num))]
      rw [mul_comm (n / 36) 36, Nat.div_add_mod]

theorem valFrom_toBase36 (n : Nat) : valFrom 0 (toBase36 n).data = n := by
  unfold toBase36
  have hdata : (String.mk (toBase36Core n n [])).data = toBase36Core n n [] := rfl
  rw [hdata, valFrom_toBase36Core n n []
    (lt_of_lt_of_le (Nat.lt_two_pow n)
      (le_trans (Nat.pow_le_pow_right (by norm_num) (Nat.le_succ n))
        (Nat.pow_le_pow_left (by norm_num) (n + 1))))]
  rfl

theorem toBase36_injective : Function.Injective toBase36 := by
  intro a b h
  have ha := valFrom_toBase36 a
  rw [h, valFrom_toBase36 b] at ha
  exact ha.symm

theorem string_append_data (s t : String) : (s ++ t).data = s.data ++ t.data := by
  cases s
  cases t
  rfl

theorem string_data_inj {s t : String} (h : s.data = t.data) : s = t := by
  cases s
  cases t
  exact congrArg String.mk h

theorem mkOrderId_injective (m n : Nat) (hmn : m ≠ n) : mkOrderId m ≠ mkOrderId n := by
  intro h
  apply hmn
  apply toBase36_injective
  have hd := congrArg String.data h
  rw [mkOrderId, mkOrderId, string_append_data, string_append_data] at hd
  exact string_data_inj (List.append_cancel_left hd)

theorem mkOrderId_ne_empty (n : Nat) : mkOrderId n ≠ "" := by
  intro h
  have hd := congrArg String.data h
  rw [mkOrderId, string_append_data] at hd
  simp at hd

/-- A created order's id is minted from the `Date.now()` read. -/
theorem placeOrder_created_orderId (menu : Catalog) (body : Option OrderRequest)
    (hdr : Option (Option Jval)) (prov : Except Unit String) (now : Int)
    (nowMs : Nat) (o : Order)
    (h : placeOrder menu body hdr prov now nowMs = .created o) :
    o.orderId = mkOrderId nowMs := by
  simp only [placeOrder] at h
  repeat' split at h
  all_goals first
    | (injection h with h2; rw [← h2])
    | simp at h

/-- Claim C7, amended: every order minted by the pipeline carries the
identifier `PBC-` plus the base-36 creation timestamp, which is always
non-empty; two accepted orders receive distinct ids whenever their
`Date.now()` millisecond readings differ — but the id is a function of
that timestamp alone, so orders accepted within the same millisecond
collide (see the counterexample). -/
theorem claim_C7_amended (menu₁ menu₂ : Catalog) (b₁ b₂ : Option OrderRequest)
    (h₁ h₂ : Option (Option Jval)) (p₁ p₂ : Except Unit String)
    (n₁ n₂ : Int) (ms₁ ms₂ : Nat) (o₁ o₂ : Order)
    (e₁ : placeOrder menu₁ b₁ h₁ p₁ n₁ ms₁ = .created o₁)
    (e₂ : placeOrder menu₂ b₂ h₂ p₂ n₂ ms₂ = .created o₂)
    (hms : ms₁ ≠ ms₂) :
    o₁.orderId ≠ o₂.orderId ∧ o₁.orderId ≠ "" := by
  rw [placeOrder_created_orderId _ _ _ _ _ _ _ e₁,
    placeOrder_created_orderId _ _ _ _ _ _ _ e₂]
  exact ⟨mkOrderId_injective _ _ hms, mkOrderId_ne_empty _⟩

/-- The order the demo request produces when accepted at millisecond
timestamp `ms`. -/
def demoOrderAt (ms : Nat) : Order :=
  { orderId := mkOrderId ms
    status := "confirmed"
    customer := { name := some "Alice", phone := some "555-1234", email := none }
    fulfillment := "pickup"
    location := "shop-1"
    pickup_time := some "2026-02-12T12:30:00-05:00"
    delivery_address := none
    delivery_window := none
    items := (calculateOrderTotal demoMenu ["brisket", "chips"]).items
    subtotal := (calculateOrderTotal demoMenu ["brisket", "chips"]).subtotal
    tax := (calculateOrderTotal demoMenu ["brisket", "chips"]).tax
    taxDescription := demoMenu.taxDescription
    total := (calculateOrderTotal demoMenu ["brisket", "chips"]).total
    payFromAddress := some "0xAAA"
    payToAddress := some "0xBBB" }

/-- The same accepted order for the second customer. -/
def demoOrderBAt (ms : Nat) : Order :=
  { demoOrderAt ms with
    customer := { name := some "Bob", phone := some "555-9999", email := none } }

/-- Witness for C7 (amended): the demo order accepted at ms 777 and again
at ms 778 yields distinct, non-empty ids. -/
theorem claim_C7_witness :
    (demoOrderAt 777).orderId ≠ (demoOrderAt 778).orderId ∧
    (demoOrderAt 777).orderId ≠ "" :=
  claim_C7_amended demoMenu demoMenu (some demoReq) (some demoReq)
    (some (some demoProof)) (some (some demoProof)) (.ok "0xDEP") (.ok "0xDEP")
    1000 1000 777 778 (demoOrderAt 777) (demoOrderAt 778) rfl rfl (by decide)

/-- Claim C7, counterexample: two different orders (Alice's and Bob's)
accepted in the same run during the same millisecond — immediate
succession — are both confirmed and receive the *same* order id
`"PBC-LL"`, refuting the claimed uniqueness. -/
theorem claim_C7_counterexample :
    placeOrder demoMenu (some demoReq) (some (some demoProof))
        (.ok "0xDEP") 1000 777 = .created (demoOrderAt 777) ∧
    placeOrder demoMenu (some demoReqB) (some (some demoProof))
        (.ok "0xDEP") 1000 777 = .created (demoOrderBAt 777) ∧
    (demoOrderAt 777).customer.name = some "Alice" ∧
    (demoOrderBAt 777).customer.name = some "Bob" ∧
    (demoOrderAt 777).orderId = "PBC-LL" ∧
    (demoOrderBAt 777).orderId = "PBC-LL" :=
  ⟨rfl, rfl, rfl, rfl, by decide, by decide⟩

end Pbc

namespace Pbc

/-! ## Claim C9 -/

/-- A decoded proof header whose `payload.authorization.to` is
string-typed but empty. -/
def emptyToHeader : Jval :=
  .obj [("payload", .obj [("authorization", .obj [("to", .str "")])])]

/-- Claim C9, counterexample: the claim says a header decoding to JSON with
a *string-typed* destination address at `payload.authorization.to` has
that address returned directly.  This header carries the string-typed
destination `""`, yet the provisioner falls through to the demo
placeholder (truthiness: the empty string is falsy), which is not that
address. -/
theorem claim_C9_counterexample :
    ((getField emptyToHeader "payload").bind
        (getField · "authorization")).bind (getField · "to") = some (.str "") ∧
    createPayToAddress (some (some emptyToHeader)) true (.error ()) =
      .ok DEMO_DEPOSIT_ADDRESS ∧
    (DEMO_DEPOSIT_ADDRESS == "") = false :=
  ⟨rfl, rfl, by decide⟩

/-- Claim C9, amended: `createPayToAddress` returns the decoded
`payload.authorization.to` directly — never minting a new address —
exactly when it is a *non-empty* (truthy) string (`usableToAddress`);
in every other case (no usable address in the header, an undecodable
header, or no header at all) it falls through to the demo placeholder
when in demo mode, otherwise to the backend-issued address. -/
theorem claim_C9_direct_reissue_of_usable_to_address
    (decoded : Jval) (demoMode : Bool) (backend : Except Unit String) :
    (createPayToAddress (some (some decoded)) demoMode backend =
      match usableToAddress decoded with
      | some s => .ok s
      | none => if demoMode then .ok DEMO_DEPOSIT_ADDRESS else backend) ∧
    createPayToAddress (some none) demoMode backend =
      (if demoMode then .ok DEMO_DEPOSIT_ADDRESS else backend) ∧
    createPayToAddress none demoMode backend =
      (if demoMode then .ok DEMO_DEPOSIT_ADDRESS else backend) := by
  refine ⟨?_, rfl, rfl⟩
  unfold createPayToAddress usableToAddress
  rfl

end Pbc
